import Mathlib

/-!
# sof-audio-dump: a shallow embedding of `sof_audio_dump.c`

The program locates the Intel HD-Audio controller on the PCI bus, checks that
the platform is Broxton/ApolloLake, maps BAR 0, reads one register and
optionally dumps the mapped region to a file.

Modelling conventions.

* C integers are `Nat`/`Int`; a value stored into a `uint32_t` is reduced
  `% 2 ^ 32`, a pointer or `size_t` `% 2 ^ 64`.
* A pointer is the `Nat` of its address, `0` being `NULL`; a `const char *`
  argument is an `Option String`, `none` being `NULL`.
* The module-scoped variables `devid`, `regions` and `hda_global_mmio` are
  fields of `State`, next to the part of the outside world the program acts
  on (process memory, files, descriptor table) and the trace of the library
  and system calls made so far.
* What the libraries and the kernel answer (libpciaccess, `open`, `write`)
  is not code of this program: the answers are the fields of `Env`.
-/

namespace SofAudioDump

/-! ## Constants of `audio_register.h` and of the system headers -/

/-- The canonical slot of the controller: `#define AUDIO_PCI_SLOT 0x0e`. -/
def AUDIO_PCI_SLOT : Nat := 0x0e

/-- HD Audio region index, BAR 0: `#define HDA_MEM_REGION 0`. -/
def HDA_MEM_REGION : Nat := 0

/-- Audio DSP region index, BAR 1: `#define DSP_MEM_REGION 1`. -/
def DSP_MEM_REGION : Nat := 1

/-- Size of the HDA region: `#define HDA_MEM_REGION_SIZE 0x4000`. -/
def HDA_MEM_REGION_SIZE : Nat := 0x4000

/-- Size of the DSP region: `#define DSP_MEM_REGION_SIZE 0x10000`. -/
def DSP_MEM_REGION_SIZE : Nat := 0x10000

/-- Mask of the lower base address, a 36-bit literal:
`#define LOW_BASE_ADDR_MASK 0xfffffc000`. -/
def LOW_BASE_ADDR_MASK : Nat := 0xfffffc000

/-- Value of `EINVAL` in `<errno.h>` on Linux. -/
def EINVAL : Int := 22

/-- Value of `EIO` in `<errno.h>` on Linux. -/
def EIO_value : Int := 5

/-- Value of `PCI_MATCH_ANY` in `<pciaccess.h>`: `(~0U)`. -/
def PCI_MATCH_ANY : Nat := 0xffffffff

/-- Value of `PCI_DEV_MAP_FLAG_WRITABLE` in `<pciaccess.h>`: `(1U << 0)`. -/
def PCI_DEV_MAP_FLAG_WRITABLE : Nat := 1

/-! ## Data model -/

/-- The two fields of `struct pci_mem_region` (libpciaccess) the program reads. -/
structure pci_mem_region where
  base_addr : Nat
  size : Nat
  deriving DecidableEq, Repr

/-- The `struct audio_mem_region` of `audio_register.h`. -/
structure audio_mem_region where
  base_addr : Nat
  size : Nat
  deriving DecidableEq, Repr

/-- The `struct pci_device` of libpciaccess: the bus address, the identifiers and
the region table (`regions[6]`, given as a list indexed from 0; an index past
its end reads as the zero region). -/
structure pci_device where
  domain : Nat
  bus : Nat
  dev : Nat
  func : Nat
  vendor_id : Nat
  device_id : Nat
  device_class : Nat
  regions : List pci_mem_region
  deriving DecidableEq, Repr

/-- The entry `pci_dev->regions[i]`. -/
def pci_device.region (d : pci_device) (i : Nat) : pci_mem_region :=
  d.regions.getD i ⟨0, 0⟩

/-- The `struct pci_id_match` of libpciaccess. -/
structure pci_id_match where
  vendor_id : Nat
  device_id : Nat
  subvendor_id : Nat
  subdevice_id : Nat
  device_class : Nat
  device_class_mask : Nat
  match_data : Nat
  deriving DecidableEq, Repr

/-- An argument of `getopt_long` as the loop of `main` sees it: the option
character returned and the value of `optarg` at that moment. -/
structure getopt_result where
  c : Nat
  optarg : Option String
  deriving DecidableEq, Repr

/-- The messages the program prints, one constructor per `printf`/`fprintf`
call of the source, carrying the values printed. -/
inductive Msg where
  /-- Prints "Couldn't initialize PCI system" -/
  | pci_init_failed
  /-- Prints "Found Intel HD-Audio controller at slot 0x%x" -/
  | found_at_slot (slot : Nat)
  /-- Prints "Found Intel HD-Audio controller: id %x, class %x" -/
  | found_controller (device_id device_class : Nat)
  /-- Prints "Fail to probe HDA controller, error %d" -/
  | probe_failed (error : Int)
  /-- Prints "Couldn't find Intel HD-Audio controller" -/
  | controller_not_found
  /-- Prints "HDA BAR lower %x, upper %x" -/
  | hda_bar_halves (lower upper : Nat)
  /-- Prints "DSP BAR lower %x, upper %x" -/
  | dsp_bar_halves (lower upper : Nat)
  /-- Prints "HDA BAR 0x%lx, size 0x%lx" -/
  | hda_bar (base size : Nat)
  /-- Prints "DSP BAR 0x%lx, size 0x%lx" -/
  | dsp_bar (base size : Nat)
  /-- Prints "Couldn't map MMIO region, error %d. Need root access." -/
  | map_failed (error : Int)
  /-- Prints "audio_global_mmio %p" -/
  | mapped_at (ptr : Nat)
  /-- Prints "error: failed to open %s err %d" -/
  | open_failed (outfile : String) (err : Int)
  /-- Prints "error: can't write HDA memory, %lu bytes written" -/
  | short_write (bytes : Nat)
  /-- Prints "%lu (0x%lx) bytes written to file %s" -/
  | bytes_written (bytes : Nat) (outfile : String)
  /-- Prints "Self test:" -/
  | self_test_header
  /-- Prints "HDA Global capabilites 0x%x (should be 0x6701)" -/
  | global_capabilities (val : Nat)
  /-- The text of `usage`. -/
  | usage_text
  /-- Prints "Only support Broxton/ApolloLake atm." (on stderr) -/
  | only_bxt
  /-- Prints "Try ... --help for more information." (on stderr) -/
  | try_help
  deriving DecidableEq, Repr

/-- One observable step of a run: a library call, a system call, a load from
the mapped region, or a message printed. -/
inductive Event where
  | pci_system_init
  | pci_device_find_by_slot (domain bus dev func : Nat)
  | pci_id_match_iterator_create (m : pci_id_match)
  | pci_device_next
  | pci_iterator_destroy
  | pci_device_probe (d : pci_device)
  | pci_device_cfg_read_u32 (d : pci_device) (offset : Nat)
  | pci_device_map_range (d : pci_device) (base size flags : Nat)
  | load32 (addr : Nat)
  | sys_open (path : String)
  | sys_write (fd : Int) (buf count : Nat)
  | sys_close (fd : Int)
  | print (m : Msg)
  deriving DecidableEq, Repr

/-- The answers of the libraries and of the kernel during one call of a
function of the program. -/
structure Env where
  /-- Return value of `pci_system_init()`. -/
  pci_system_init : Int
  /-- Result of `pci_device_find_by_slot(domain, bus, dev, func)`. -/
  pci_device_find_by_slot : Nat → Nat → Nat → Nat → Option pci_device
  /-- First device of an iterator created for the given match, if any. -/
  pci_device_next : pci_id_match → Option pci_device
  /-- Return value of `pci_device_probe(dev)`. -/
  pci_device_probe : pci_device → Int
  /-- Return value of `pci_device_cfg_read_u32(dev, &data, offset)` and the
  content of `data` after the call. -/
  pci_device_cfg_read_u32 : pci_device → Nat → Int × Nat
  /-- Return value of `pci_device_map_range(dev, base, size, flags, &addr)`
  and the content of `addr` after the call, given its content before. -/
  pci_device_map_range : pci_device → Nat → Nat → Nat → Nat → Int × Nat
  /-- Return value of `open(path, O_RDWR | O_CREAT | O_TRUNC, 0600)` and the
  value of `errno` after a failure. -/
  sys_open : String → Int × Int
  /-- Return value of `write(fd, buf, count)`. -/
  sys_write : Int → Nat → Nat → Int

/-- The program's module-scoped variables together with the part of the
outside world it acts on. -/
structure State where
  /-- The variable `static uint32_t devid`. -/
  devid : Nat
  /-- Entry `HDA_MEM_REGION` of `static struct audio_mem_region regions[2]`. -/
  regions_hda : audio_mem_region
  /-- Entry `DSP_MEM_REGION` of `static struct audio_mem_region regions[2]`. -/
  regions_dsp : audio_mem_region
  /-- The variable `static void *hda_global_mmio`. -/
  hda_global_mmio : Nat
  /-- Process memory: the byte a load at an address yields, `none` where the
  address is not readable. -/
  mem : Nat → Option Nat
  /-- File contents by path, `none` for a path that names no file. -/
  files : String → Option (List Nat)
  /-- The descriptors currently open. -/
  open_fds : List Int
  /-- The calls made and messages printed so far, oldest first. -/
  trace : List Event

/-- Append one event to the trace. -/
def State.emit (s : State) (e : Event) : State :=
  { s with trace := s.trace ++ [e] }

/-! ## The platform gate -/

/-- The check for Broxton/ApolloLake:
`#define IS_BXT(pci) ((pci)->vendor_id == 0x8086 && (pci)->device_id == 0x5a98)`. -/
def IS_BXT (pci : pci_device) : Bool :=
  pci.vendor_id == 0x8086 && pci.device_id == 0x5a98

/-! ## The device locator -/

/-- The `struct pci_id_match` filled in by `intel_get_audio_pci_device`. -/
def audio_match : pci_id_match :=
  { vendor_id := 0x8086
    device_id := PCI_MATCH_ANY
    subvendor_id := PCI_MATCH_ANY
    subdevice_id := PCI_MATCH_ANY
    device_class := 0x4 <<< 16 ||| 0x1 <<< 8
    device_class_mask := 0xffff <<< 8
    match_data := 0 }

/-- The function `struct pci_device *intel_get_audio_pci_device(void)`;
`none` is `NULL`. -/
def intel_get_audio_pci_device (env : Env) (s : State) : Option pci_device × State :=
  let s := s.emit Event.pci_system_init
  let error := env.pci_system_init
  if error ≠ 0 then
    (none, s.emit (Event.print Msg.pci_init_failed))
  else
    let s := s.emit (Event.pci_device_find_by_slot 0 AUDIO_PCI_SLOT 0 0)
    let pci_dev := env.pci_device_find_by_slot 0 AUDIO_PCI_SLOT 0 0
    let s := if pci_dev.isSome then s.emit (Event.print (Msg.found_at_slot AUDIO_PCI_SLOT)) else s
    if (match pci_dev with
        | none => true
        | some d => d.vendor_id != 0x8086) then
      let s := s.emit (Event.pci_id_match_iterator_create audio_match)
      let s := s.emit Event.pci_device_next
      let pci_dev := env.pci_device_next audio_match
      let s := s.emit Event.pci_iterator_destroy
      match pci_dev with
      | some d =>
        let s := s.emit (Event.print (Msg.found_controller d.device_id d.device_class))
        let s := s.emit (Event.pci_device_probe d)
        let error := env.pci_device_probe d
        let s := if error ≠ 0 then s.emit (Event.print (Msg.probe_failed error)) else s
        (some d, s)
      | none =>
        (none, s.emit (Event.print Msg.controller_not_found))
    else
      (pci_dev, s)

/-! ## The region descriptor -/

/-- The statement `x &= LOW_BASE_ADDR_MASK` on a `uint32_t x`: the operand
is widened, the AND is taken with the 36-bit literal, and the result is
stored back into 32 bits. -/
def mask_low_base_addr (x : Nat) : Nat :=
  (x &&& LOW_BASE_ADDR_MASK) % 2 ^ 32

/-- The function `int read_pci_header(struct pci_device *pci_dev)`. Each
`uint32_t` local holds what the library left in it, reduced to 32 bits. -/
def read_pci_header (env : Env) (s : State) (pci_dev : pci_device) : Int × State :=
  let s := s.emit (Event.pci_device_cfg_read_u32 pci_dev 0x10)
  let hdalba := (env.pci_device_cfg_read_u32 pci_dev 0x10).2 % 2 ^ 32
  let s := s.emit (Event.pci_device_cfg_read_u32 pci_dev 0x14)
  let hdauba := (env.pci_device_cfg_read_u32 pci_dev 0x14).2 % 2 ^ 32
  let s := s.emit (Event.pci_device_cfg_read_u32 pci_dev 0x20)
  let dsplba := (env.pci_device_cfg_read_u32 pci_dev 0x20).2 % 2 ^ 32
  let s := s.emit (Event.pci_device_cfg_read_u32 pci_dev 0x24)
  let ret := (env.pci_device_cfg_read_u32 pci_dev 0x24).1
  let dspuba := (env.pci_device_cfg_read_u32 pci_dev 0x24).2 % 2 ^ 32
  let hdalba := mask_low_base_addr hdalba
  let dsplba := mask_low_base_addr dsplba
  let s := s.emit (Event.print (Msg.hda_bar_halves hdalba hdauba))
  let s := s.emit (Event.print (Msg.dsp_bar_halves dsplba dspuba))
  (ret, s)

/-! ## The mapper -/

/-- The function `int intel_mmio_use_pci_bar(struct pci_device *pci_dev)`. -/
def intel_mmio_use_pci_bar (env : Env) (s : State) (pci_dev : pci_device) : Int × State :=
  let s := { s with regions_hda :=
    { base_addr := (pci_dev.region HDA_MEM_REGION).base_addr
      size := (pci_dev.region HDA_MEM_REGION).size } }
  let s := { s with regions_dsp :=
    { base_addr := (pci_dev.region DSP_MEM_REGION).base_addr
      size := (pci_dev.region DSP_MEM_REGION).size } }
  let s := s.emit (Event.print (Msg.hda_bar s.regions_hda.base_addr s.regions_hda.size))
  let s := s.emit (Event.print (Msg.dsp_bar s.regions_dsp.base_addr s.regions_dsp.size))
  let s := { s with devid := pci_dev.device_id }
  let mmio_bar := HDA_MEM_REGION
  let mmio_size := HDA_MEM_REGION_SIZE
  let s := s.emit (Event.pci_device_map_range pci_dev
    (pci_dev.region mmio_bar).base_addr mmio_size PCI_DEV_MAP_FLAG_WRITABLE)
  let answer := env.pci_device_map_range pci_dev
    (pci_dev.region mmio_bar).base_addr mmio_size PCI_DEV_MAP_FLAG_WRITABLE s.hda_global_mmio
  let error := answer.1
  let s := { s with hda_global_mmio := answer.2 % 2 ^ 64 }
  if error ≠ 0 ∨ s.hda_global_mmio = 0 then
    (-1, s.emit (Event.print (Msg.map_failed error)))
  else
    (0, s.emit (Event.print (Msg.mapped_at s.hda_global_mmio)))

/-! ## The register accessor -/

/-- A 32-bit little-endian load from process memory; `none` when one of the
four bytes is not readable (the access faults). -/
def load32 (mem : Nat → Option Nat) (addr : Nat) : Option Nat :=
  match mem addr, mem (addr + 1), mem (addr + 2), mem (addr + 3) with
  | some b0, some b1, some b2, some b3 =>
    some (b0 % 256 + 256 * (b1 % 256) + 65536 * (b2 % 256) + 16777216 * (b3 % 256))
  | _, _, _, _ => none

/-- The function `uint32_t intel_register_read(uint32_t reg)`: one volatile
load at `(char *)hda_global_mmio + reg`. The result is `none` when the load
faults. -/
def intel_register_read (s : State) (reg : Nat) : Option Nat × State :=
  let addr := (s.hda_global_mmio + reg % 2 ^ 32) % 2 ^ 64
  (load32 s.mem addr, s.emit (Event.load32 addr))

/-- The function `void self_test(void)`; `none` when the register load
faults. -/
def self_test (s : State) : Option Unit × State :=
  let s := s.emit (Event.print Msg.self_test_header)
  let r := intel_register_read s 0
  match r.1 with
  | none => (none, r.2)
  | some val32 => (some (), r.2.emit (Event.print (Msg.global_capabilities (val32 &&& 0xffff))))

/-! ## The dump exporter -/

/-- The `count` bytes of process memory from `buf` on, as `write` copies them
(a byte that is not readable is shown as 0). -/
def buffer_bytes (mem : Nat → Option Nat) (buf count : Nat) : List Nat :=
  (List.range count).map (fun i => (mem (buf + i)).getD 0)

/-- What a `write` that returns `r` does to the content of a file whose
offset is 0: for `0 ≤ r ≤ count` the first `r` bytes of the buffer replace
the first `r` bytes of the file; otherwise nothing is written. -/
def written_content (old buffer : List Nat) (r : Int) : List Nat :=
  if 0 ≤ r ∧ r ≤ buffer.length then buffer.take r.toNat ++ old.drop r.toNat else old

/-- The function `int dump_memory_to_file(const char *outfile)`.

A successful `open` with `O_CREAT | O_TRUNC` leaves an empty file at the path
and a new descriptor in the table; `close` removes the descriptor. The value
`write` returns is stored into the `size_t bytes`. -/
def dump_memory_to_file (env : Env) (s : State) (outfile : Option String) : Int × State :=
  match outfile with
  | none => (-EINVAL, s)
  | some path =>
    if s.hda_global_mmio = 0 then
      (-EINVAL, s)
    else
      let s := s.emit (Event.sys_open path)
      let out_fd := (env.sys_open path).1
      let errno := (env.sys_open path).2
      if out_fd < 0 then
        (-errno, s.emit (Event.print (Msg.open_failed path (-errno))))
      else
        let s := { s with
          files := Function.update s.files path (some [])
          open_fds := out_fd :: s.open_fds }
        let s := s.emit (Event.sys_write out_fd s.hda_global_mmio HDA_MEM_REGION_SIZE)
        let r := env.sys_write out_fd s.hda_global_mmio HDA_MEM_REGION_SIZE
        let s := { s with
          files := Function.update s.files path
            (some (written_content ((s.files path).getD [])
              (buffer_bytes s.mem s.hda_global_mmio HDA_MEM_REGION_SIZE) r)) }
        let bytes := (r % 2 ^ 64).toNat
        let ret : Int := if bytes ≠ HDA_MEM_REGION_SIZE then -EIO_value else 0
        let s :=
          if bytes ≠ HDA_MEM_REGION_SIZE then s.emit (Event.print (Msg.short_write bytes))
          else s.emit (Event.print (Msg.bytes_written bytes path))
        let s := s.emit (Event.sys_close out_fd)
        let s := { s with open_fds := s.open_fds.erase out_fd }
        (ret, s)

/-! ## The driver -/

/-- The option loop of `main`: `some code` when `main` returns `code` from
inside the loop, otherwise the final value of `output_file`. The list holds
what `getopt_long` returned before it returned -1. -/
def main_options (s : State) : List getopt_result → Option String →
    (Option Int × Option String) × State
  | [], output_file => ((none, output_file), s)
  | g :: rest, output_file =>
    if g.c = 104 then
      ((some 0, output_file), s.emit (Event.print Msg.usage_text))
    else if g.c = 111 then
      main_options s rest g.optarg
    else
      ((some 1, output_file), s.emit (Event.print Msg.try_help))

/-- The function `int main(int argc, char **argv)`; the result is `none`
when the run is ended by a faulting register load. -/
def main (env : Env) (s : State) (args : List getopt_result) : Option Int × State :=
  let o := main_options s args none
  match o.1.1 with
  | some code => (some code, o.2)
  | none =>
    let output_file := o.1.2
    let l := intel_get_audio_pci_device env o.2
    match l.1 with
    | none => (some (-1), l.2)
    | some pci_dev =>
      if !IS_BXT pci_dev then
        (some (-EINVAL), l.2.emit (Event.print Msg.only_bxt))
      else
        let s := { l.2 with devid := pci_dev.device_id }
        let h := read_pci_header env s pci_dev
        let m := intel_mmio_use_pci_bar env h.2 pci_dev
        if m.1 < 0 then
          (some m.1, m.2)
        else
          let t := self_test m.2
          match t.1 with
          | none => (none, t.2)
          | some _ =>
            match output_file with
            | some f =>
              let d := dump_memory_to_file env t.2 (some f)
              if d.1 < 0 then (some d.1, d.2) else (some 0, d.2)
            | none => (some 0, t.2)

/-! ## Concrete devices and environments used in the examples -/

/-- A Broxton HD-Audio controller at the canonical slot, BAR 0 at
`0x90000000`. -/
def bxt_device : pci_device :=
  { domain := 0, bus := 0, dev := 0x0e, func := 0
    vendor_id := 0x8086, device_id := 0x5a98, device_class := 0x040100
    regions := [⟨0x90000000, 0x4000⟩, ⟨0, 0⟩, ⟨0, 0⟩, ⟨0, 0⟩, ⟨0x90100000, 0x100000⟩, ⟨0, 0⟩] }

/-- An Intel HD-Audio controller of another platform. -/
def other_device : pci_device :=
  { bxt_device with device_id := 0x9d70 }

/-- An environment in which every call succeeds: every lookup by address and
every scan yields the Broxton controller, the mapping request yields
`0x7f0000000000`, `open` returns descriptor 3 and `write` is complete. -/
def good_env : Env :=
  { pci_system_init := 0
    pci_device_find_by_slot := fun _ _ _ _ => some bxt_device
    pci_device_next := fun _ => some bxt_device
    pci_device_probe := fun _ => 0
    pci_device_cfg_read_u32 := fun _ _ => (0, 0x90000004)
    pci_device_map_range := fun _ _ _ _ _ => (0, 0x7f0000000000)
    sys_open := fun _ => (3, 0)
    sys_write := fun _ _ count => count }

/-- The state of a fresh process: zeroed module variables, memory in which
every byte reads as its address modulo 256, no files, descriptors 0 to 2
open, and an empty trace. -/
def initial_state : State :=
  { devid := 0
    regions_hda := ⟨0, 0⟩
    regions_dsp := ⟨0, 0⟩
    hda_global_mmio := 0
    mem := fun a => some (a % 256)
    files := fun _ => none
    open_fds := [0, 1, 2]
    trace := [] }

/-- A process in which BAR 0 is mapped at `0x7f0000000000`. -/
def mapped_state : State :=
  { initial_state with hda_global_mmio := 0x7f0000000000 }

/-- An environment that grants every mapping request: the first one (made
while `hda_global_mmio` is `NULL`) at `0x7f0000000000`, any later one at
`0x7f0000004000`. -/
def remap_env : Env :=
  { good_env with
    pci_device_map_range := fun _ _ _ _ before =>
      (0, if before = 0 then 0x7f0000000000 else 0x7f0000004000) }

/-- An environment in which `open` fails with `ENOENT` (2), as it does for an
empty path. -/
def enoent_env : Env :=
  { good_env with sys_open := fun _ => (-1, 2) }

/-- The Broxton controller at 0000:00:0e.0 as it enumerates with the DSP
disabled: class 0x040300 (multimedia, HD Audio). -/
def hda_class_device : pci_device :=
  { bxt_device with device_class := 0x040300 }

/-- The comparison libpciaccess makes between a `struct pci_id_match` and a
device: each identifier equal or `PCI_MATCH_ANY`, and the masked class equal
to the class asked for. -/
def id_matches (m : pci_id_match) (d : pci_device) : Bool :=
  (m.vendor_id == PCI_MATCH_ANY || m.vendor_id == d.vendor_id) &&
  (m.device_id == PCI_MATCH_ANY || m.device_id == d.device_id) &&
  (d.device_class &&& m.device_class_mask == m.device_class)

/-- An environment whose bus holds the single device `d`: a lookup by
(domain, bus, dev, func) finds it at its own address and nowhere else, and a
scan yields it when it matches. Every other call succeeds as in `good_env`. -/
def single_device_env (d : pci_device) : Env :=
  { good_env with
    pci_device_find_by_slot := fun domain bus dev func =>
      if domain = d.domain ∧ bus = d.bus ∧ dev = d.dev ∧ func = d.func then some d else none
    pci_device_next := fun m => if id_matches m d then some d else none }

/-! ## Observations on traces -/

/-- The events a call added to the trace: those past the length the trace
had before the call. -/
def events_since (before after : State) : List Event :=
  after.trace.drop before.trace.length

/-- The event is a mapping request. -/
def is_map_request : Event → Bool
  | Event.pci_device_map_range _ _ _ _ => true
  | _ => false

/-- The event belongs to a stage after the platform gate: a configuration
read, a mapping request, a register load, or a step of the dump. -/
def is_later_stage : Event → Bool
  | Event.pci_device_cfg_read_u32 _ _ => true
  | Event.pci_device_map_range _ _ _ _ => true
  | Event.load32 _ => true
  | Event.sys_open _ => true
  | Event.sys_write _ _ _ => true
  | Event.sys_close _ => true
  | _ => false

/-! ## The locator as the specification words it -/

/-- The decision of the device locator in the words of the specification,
from the result of bus initialisation, of the canonical-slot lookup and of
the filtered scan: nothing when initialisation fails; the slot device when
it is an Intel device; otherwise the first device of the scan. -/
def locator_decision (init : Int) (slot scan : Option pci_device) : Option pci_device :=
  if init ≠ 0 then none
  else
    match slot with
    | some d => if d.vendor_id = 0x8086 then some d else scan
    | none => scan

/-- The canonical-slot lookup yields an Intel device. -/
def slot_is_intel (slot : Option pci_device) : Bool :=
  match slot with
  | some d => d.vendor_id == 0x8086
  | none => false

/-! ## Platform gate (C1) -/

/-- C1: the platform gate `IS_BXT` holds exactly for vendor 0x8086 with
device 0x5A98; whatever the other fields of a handle, it is false for the
pair (0x8086, 0x0000) and for the pair (0x0000, 0x5A98). -/
theorem IS_BXT_iff_bxt_pair (pci : pci_device) :
    (IS_BXT pci = true ↔ pci.vendor_id = 0x8086 ∧ pci.device_id = 0x5A98) ∧
    IS_BXT { pci with vendor_id := 0x8086, device_id := 0x0000 } = false ∧
    IS_BXT { pci with vendor_id := 0x0000, device_id := 0x5A98 } = false := by
  refine ⟨?_, ?_, ?_⟩
  · simp [IS_BXT]
  · simp [IS_BXT]
  · simp [IS_BXT]

/-! ## Region masking (C3) -/

/-- Bit `i` of the 36-bit literal is set exactly for `14 ≤ i < 36`. -/
theorem testBit_LOW_BASE_ADDR_MASK (i : Nat) :
    LOW_BASE_ADDR_MASK.testBit i = (decide (14 ≤ i) && decide (i < 36)) := by
  have h : LOW_BASE_ADDR_MASK = 2 ^ 14 * (2 ^ 22 - 1) := by decide
  rw [h, Nat.testBit_mul_pow_two, Nat.testBit_two_pow_sub_one]
  by_cases h14 : 14 ≤ i
  · by_cases h36 : i < 36
    · have : i - 14 < 22 := by omega
      simp [h14, h36, this]
    · have : ¬ i - 14 < 22 := by omega
      simp [h14, h36, this]
  · simp [h14]

/-- Bit `i` of a masked value: bit `i` of the input for `14 ≤ i < 32`, and 0
elsewhere. -/
theorem testBit_mask_low_base_addr (v i : Nat) :
    (mask_low_base_addr v).testBit i = (decide (14 ≤ i) && decide (i < 32) && v.testBit i) := by
  unfold mask_low_base_addr
  rw [Nat.testBit_mod_two_pow, Nat.testBit_and, testBit_LOW_BASE_ADDR_MASK]
  by_cases h14 : 14 ≤ i
  · by_cases h32 : i < 32
    · have : i < 36 := by omega
      simp [h14, h32, this]
    · simp [h32]
  · simp [h14]

/-- C3: for every raw configuration value `v` (the 32-bit ones among them),
the mask applied in `read_pci_header` clears bits 0 to 13, keeps bits 14 to
31 of `v`, gives the same 32-bit result as the AND with the 32-bit mask
0xFFFFC000, and is idempotent. -/
theorem mask_low_base_addr_spec (v : Nat) :
    (∀ i : Fin 14, (mask_low_base_addr v).testBit i = false) ∧
    (∀ i : Fin 18, (mask_low_base_addr v).testBit (14 + i) = v.testBit (14 + i)) ∧
    mask_low_base_addr v = v &&& 0xFFFFC000 ∧
    mask_low_base_addr v < 2 ^ 32 ∧
    mask_low_base_addr (mask_low_base_addr v) = mask_low_base_addr v := by
  refine ⟨?_, ?_, ?_, ?_, ?_⟩
  · intro i
    have : ¬ 14 ≤ (i : Nat) := by omega
    simp [testBit_mask_low_base_addr, this]
  · intro i
    have h1 : 14 ≤ 14 + (i : Nat) := by omega
    have h2 : 14 + (i : Nat) < 32 := by omega
    simp [testBit_mask_low_base_addr, h2]
  · apply Nat.eq_of_testBit_eq
    intro i
    have hm : (0xFFFFC000 : Nat) = 2 ^ 14 * (2 ^ 18 - 1) := by decide
    rw [testBit_mask_low_base_addr, Nat.testBit_and, hm, Nat.testBit_mul_pow_two,
      Nat.testBit_two_pow_sub_one]
    by_cases h14 : 14 ≤ i
    · by_cases h32 : i < 32
      · have : i - 14 < 18 := by omega
        simp [h14, h32, this]
      · have : ¬ i - 14 < 18 := by omega
        simp [h14, h32, this]
    · simp [h14]
  · exact Nat.mod_lt _ (by decide)
  · apply Nat.eq_of_testBit_eq
    intro i
    rw [testBit_mask_low_base_addr, testBit_mask_low_base_addr]
    cases decide (14 ≤ i) <;> cases decide (i < 32) <;> simp

/-- The two lower halves `read_pci_header` prints are the masked values of
what the configuration reads at 0x10 and 0x20 left in the 32-bit locals. -/
theorem read_pci_header_prints_masked (env : Env) (s : State) (d : pci_device) :
    (read_pci_header env s d).2.trace = s.trace ++
      [Event.pci_device_cfg_read_u32 d 0x10, Event.pci_device_cfg_read_u32 d 0x14,
       Event.pci_device_cfg_read_u32 d 0x20, Event.pci_device_cfg_read_u32 d 0x24,
       Event.print (Msg.hda_bar_halves
         (mask_low_base_addr ((env.pci_device_cfg_read_u32 d 0x10).2 % 2 ^ 32))
         ((env.pci_device_cfg_read_u32 d 0x14).2 % 2 ^ 32)),
       Event.print (Msg.dsp_bar_halves
         (mask_low_base_addr ((env.pci_device_cfg_read_u32 d 0x20).2 % 2 ^ 32))
         ((env.pci_device_cfg_read_u32 d 0x24).2 % 2 ^ 32))] := by
  simp [read_pci_header, State.emit]

/-! ## Device locator (C10) -/

/-- The locator as coded. Its result is `locator_decision` of the
initialisation result, the lookup `pci_device_find_by_slot(0, 0x0e, 0, 0)`
(in the order of libpciaccess: domain 0, bus 0x0e, device 0, function 0) and
the scan filtered by vendor 0x8086, class 0x040100 and class mask 0xFFFF00,
so the result of the probe plays no part. When that lookup yields an Intel
device the call makes the initialisation and the lookup and nothing else (no
scan, no probe); when it does not, the first device of the scan is probed and
returned. No device is returned exactly when initialisation fails or neither
path yields one. -/
theorem intel_get_audio_pci_device_as_coded (env : Env) (s : State) :
    (intel_get_audio_pci_device env s).1 =
      locator_decision env.pci_system_init
        (env.pci_device_find_by_slot 0 0x0e 0 0)
        (env.pci_device_next
          { vendor_id := 0x8086, device_id := 0xffffffff, subvendor_id := 0xffffffff
            subdevice_id := 0xffffffff, device_class := 0x040100
            device_class_mask := 0xFFFF00, match_data := 0 }) ∧
    (env.pci_system_init ≠ 0 → (intel_get_audio_pci_device env s).1 = none) ∧
    (env.pci_system_init = 0 →
      slot_is_intel (env.pci_device_find_by_slot 0 0x0e 0 0) = true →
      (intel_get_audio_pci_device env s).1 = env.pci_device_find_by_slot 0 0x0e 0 0 ∧
      (intel_get_audio_pci_device env s).2.trace = s.trace ++
        [Event.pci_system_init, Event.pci_device_find_by_slot 0 0x0e 0 0,
         Event.print (Msg.found_at_slot 0x0e)]) ∧
    (env.pci_system_init = 0 →
      slot_is_intel (env.pci_device_find_by_slot 0 0x0e 0 0) = false →
      (intel_get_audio_pci_device env s).1 = env.pci_device_next audio_match ∧
      ∀ d, env.pci_device_next audio_match = some d →
        Event.pci_device_probe d ∈ (intel_get_audio_pci_device env s).2.trace) ∧
    ((intel_get_audio_pci_device env s).1 = none ↔
      env.pci_system_init ≠ 0 ∨
      (slot_is_intel (env.pci_device_find_by_slot 0 0x0e 0 0) = false ∧
        env.pci_device_next audio_match = none)) := by
  have hm : audio_match =
      { vendor_id := 0x8086, device_id := 0xffffffff, subvendor_id := 0xffffffff
        subdevice_id := 0xffffffff, device_class := 0x040100
        device_class_mask := 0xFFFF00, match_data := 0 } := by decide
  rw [← hm]
  have hslot : AUDIO_PCI_SLOT = 0x0e := rfl
  by_cases hinit : env.pci_system_init = 0
  · cases hs : env.pci_device_find_by_slot 0 0x0e 0 0 with
    | none =>
      cases hn : env.pci_device_next audio_match with
      | none =>
        simp [intel_get_audio_pci_device, locator_decision, slot_is_intel, hinit, hslot, hs, hn]
      | some d =>
        by_cases hp : env.pci_device_probe d = 0 <;>
        simp [intel_get_audio_pci_device, locator_decision, slot_is_intel, hinit, hslot, hs,
          hn, hp, State.emit]
    | some d0 =>
      by_cases hv : d0.vendor_id = 0x8086
      · simp [intel_get_audio_pci_device, locator_decision, slot_is_intel, hinit, hslot, hs,
          hv, State.emit]
      · cases hn : env.pci_device_next audio_match with
        | none =>
          simp [intel_get_audio_pci_device, locator_decision, slot_is_intel, hinit, hslot, hs,
            hn, hv]
        | some d =>
          by_cases hp : env.pci_device_probe d = 0 <;>
          simp [intel_get_audio_pci_device, locator_decision, slot_is_intel, hinit, hslot, hs,
            hn, hp, hv, State.emit]
  · simp [intel_get_audio_pci_device, locator_decision, hinit]

/-- The locator at an environment whose lookup yields a non-Intel device and
whose scan yields the Broxton controller: the probe fails, and the scanned
controller is returned all the same. -/
theorem intel_get_audio_pci_device_as_coded_example :
    (intel_get_audio_pci_device
      { good_env with
        pci_device_find_by_slot := fun _ _ _ _ => some { bxt_device with vendor_id := 0x1002 }
        pci_device_probe := fun _ => 13 } initial_state).1 = some bxt_device :=
  ((intel_get_audio_pci_device_as_coded
      { good_env with
        pci_device_find_by_slot := fun _ _ _ _ => some { bxt_device with vendor_id := 0x1002 }
        pci_device_probe := fun _ => 13 } initial_state).2.2.2.1 rfl rfl).1

/-- C10 fails on the code: the lookup the locator makes is
`pci_device_find_by_slot(0, AUDIO_PCI_SLOT, 0, 0)`, whose arguments are
(domain, bus, dev, func), so it asks for bus 0x0e, device 0, and never for
bus 0, slot 0x0e, function 0. With the Intel controller (class 0x040300) as
the only device, at 0000:00:0e.0, the canonical-slot lookup of the claim
yields it and the decision of the claim is that device, yet the locator
returns no device. With the same controller in class 0x040100 the locator
returns it, but only through the scan and the probe the claim says are not
made. -/
theorem intel_get_audio_pci_device_misses_canonical_slot :
    (single_device_env hda_class_device).pci_device_find_by_slot 0 0 0x0e 0
      = some hda_class_device ∧
    hda_class_device.vendor_id = 0x8086 ∧
    locator_decision (single_device_env hda_class_device).pci_system_init
      ((single_device_env hda_class_device).pci_device_find_by_slot 0 0 0x0e 0)
      ((single_device_env hda_class_device).pci_device_next audio_match)
      = some hda_class_device ∧
    (intel_get_audio_pci_device (single_device_env hda_class_device) initial_state).1 = none ∧
    events_since initial_state
      (intel_get_audio_pci_device (single_device_env hda_class_device) initial_state).2
      = [Event.pci_system_init, Event.pci_device_find_by_slot 0 0x0e 0 0,
         Event.pci_id_match_iterator_create audio_match, Event.pci_device_next,
         Event.pci_iterator_destroy, Event.print Msg.controller_not_found] ∧
    (single_device_env bxt_device).pci_device_find_by_slot 0 0 0x0e 0 = some bxt_device ∧
    (intel_get_audio_pci_device (single_device_env bxt_device) initial_state).1
      = some bxt_device ∧
    events_since initial_state
      (intel_get_audio_pci_device (single_device_env bxt_device) initial_state).2
      = [Event.pci_system_init, Event.pci_device_find_by_slot 0 0x0e 0 0,
         Event.pci_id_match_iterator_create audio_match, Event.pci_device_next,
         Event.pci_iterator_destroy, Event.print (Msg.found_controller 0x5a98 0x040100),
         Event.pci_device_probe bxt_device] := by
  refine ⟨by decide, by decide, by decide, by decide, by decide, by decide, by decide,
    by decide⟩

/-! ## MMIO mapper (C9, C8) -/

/-- The trace, the pointer and the result of one call of the mapper, for any
state: the call adds two messages, one mapping request for 16384 writable
bytes at the base of the BAR 0 entry of the handle, and one more message. -/
theorem intel_mmio_use_pci_bar_run (env : Env) (s : State) (d : pci_device) :
    (∃ m, (intel_mmio_use_pci_bar env s d).2.trace = s.trace ++
      [Event.print (Msg.hda_bar (d.region 0).base_addr (d.region 0).size),
       Event.print (Msg.dsp_bar (d.region 1).base_addr (d.region 1).size),
       Event.pci_device_map_range d (d.region 0).base_addr 16384 1,
       Event.print m]) ∧
    (intel_mmio_use_pci_bar env s d).2.hda_global_mmio =
      (env.pci_device_map_range d (d.region 0).base_addr 16384 1 s.hda_global_mmio).2 % 2 ^ 64 ∧
    ((intel_mmio_use_pci_bar env s d).1 = 0 ↔
      (env.pci_device_map_range d (d.region 0).base_addr 16384 1 s.hda_global_mmio).1 = 0 ∧
      (env.pci_device_map_range d (d.region 0).base_addr 16384 1 s.hda_global_mmio).2
        % 2 ^ 64 ≠ 0) ∧
    ((intel_mmio_use_pci_bar env s d).1 ≠ 0 → (intel_mmio_use_pci_bar env s d).1 = -1) := by
  have h0 : HDA_MEM_REGION = 0 := rfl
  have h1 : DSP_MEM_REGION = 1 := rfl
  have hsz : HDA_MEM_REGION_SIZE = 16384 := rfl
  have hfl : PCI_DEV_MAP_FLAG_WRITABLE = 1 := rfl
  by_cases he : (env.pci_device_map_range d (d.region 0).base_addr 16384 1 s.hda_global_mmio).1 = 0
  · by_cases hp : (env.pci_device_map_range d (d.region 0).base_addr 16384 1
        s.hda_global_mmio).2 % 18446744073709551616 = 0
    · simp [intel_mmio_use_pci_bar, State.emit, h0, h1, hsz, hfl, he, hp]
    · simp [intel_mmio_use_pci_bar, State.emit, h0, h1, hsz, hfl, he, hp]
  · simp [intel_mmio_use_pci_bar, State.emit, h0, h1, hsz, hfl, he]

/-- The events of one call of the mapper hold exactly one mapping request. -/
theorem intel_mmio_use_pci_bar_requests (env : Env) (s : State) (d : pci_device) :
    (events_since s (intel_mmio_use_pci_bar env s d).2).filter is_map_request =
      [Event.pci_device_map_range d (d.region 0).base_addr 16384 1] := by
  obtain ⟨m, hm⟩ := (intel_mmio_use_pci_bar_run env s d).1
  simp [events_since, hm, is_map_request]

/-- The module's own region table after a call holds the base and the size
of the handle's entries 0 and 1; the size of the request is not taken from
it. -/
theorem intel_mmio_use_pci_bar_region_table (env : Env) (s : State) (d : pci_device) :
    (intel_mmio_use_pci_bar env s d).2.regions_hda = ⟨(d.region 0).base_addr, (d.region 0).size⟩ ∧
    (intel_mmio_use_pci_bar env s d).2.regions_dsp = ⟨(d.region 1).base_addr, (d.region 1).size⟩ ∧
    (intel_mmio_use_pci_bar env s d).2.devid = d.device_id := by
  have h0 : HDA_MEM_REGION = 0 := rfl
  have h1 : DSP_MEM_REGION = 1 := rfl
  unfold intel_mmio_use_pci_bar
  simp only [h0, h1]
  split <;> simp [State.emit]

/-- C9: for every device handle (and every state and environment), the
mapper issues exactly one mapping request, for the base address of the
handle's region-table entry 0, the length `HDA_MEM_REGION_SIZE` = 16384
(`DSP_MEM_REGION_SIZE` being 65536) and the writable flag; it returns 0
exactly when the request reports no error and leaves a non-null pointer, and
-1 otherwise. -/
theorem intel_mmio_use_pci_bar_spec (env : Env) (s : State) (d : pci_device) :
    (events_since s (intel_mmio_use_pci_bar env s d).2).filter is_map_request =
      [Event.pci_device_map_range d (d.region HDA_MEM_REGION).base_addr HDA_MEM_REGION_SIZE
        PCI_DEV_MAP_FLAG_WRITABLE] ∧
    HDA_MEM_REGION = 0 ∧ HDA_MEM_REGION_SIZE = 16384 ∧ DSP_MEM_REGION_SIZE = 65536 ∧
    PCI_DEV_MAP_FLAG_WRITABLE = 1 ∧
    ((intel_mmio_use_pci_bar env s d).1 =
      if (env.pci_device_map_range d (d.region HDA_MEM_REGION).base_addr HDA_MEM_REGION_SIZE
            PCI_DEV_MAP_FLAG_WRITABLE s.hda_global_mmio).1 = 0 ∧
          (intel_mmio_use_pci_bar env s d).2.hda_global_mmio ≠ 0
      then 0 else -1) ∧
    (intel_mmio_use_pci_bar env s d).2.hda_global_mmio =
      (env.pci_device_map_range d (d.region HDA_MEM_REGION).base_addr HDA_MEM_REGION_SIZE
        PCI_DEV_MAP_FLAG_WRITABLE s.hda_global_mmio).2 % 2 ^ 64 := by
  have h := intel_mmio_use_pci_bar_run env s d
  have hr := intel_mmio_use_pci_bar_requests env s d
  have h0 : HDA_MEM_REGION = 0 := rfl
  have hsz : HDA_MEM_REGION_SIZE = 16384 := rfl
  have hfl : PCI_DEV_MAP_FLAG_WRITABLE = 1 := rfl
  refine ⟨by simpa [h0, hsz, hfl] using hr, rfl, rfl, rfl, rfl, ?_, by simpa [h0, hsz, hfl] using h.2.1⟩
  simp only [h0, hsz, hfl, h.2.1]
  by_cases hz : (intel_mmio_use_pci_bar env s d).1 = 0
  · rw [hz, if_pos (h.2.2.1.mp hz)]
  · rw [h.2.2.2 hz, if_neg (fun hc => hz (h.2.2.1.mpr hc))]

/-- C8, as stated, fails: after a first successful call has mapped BAR 0 at
`0x7f0000000000`, a second call for the same device issues a second mapping
request, returns 0 and replaces the pointer by the new mapping. -/
theorem second_mapping_request_is_issued :
    (intel_mmio_use_pci_bar remap_env initial_state bxt_device).1 = 0 ∧
    (intel_mmio_use_pci_bar remap_env initial_state bxt_device).2.hda_global_mmio
      = 0x7f0000000000 ∧
    (intel_mmio_use_pci_bar remap_env
      (intel_mmio_use_pci_bar remap_env initial_state bxt_device).2 bxt_device).1 = 0 ∧
    (events_since (intel_mmio_use_pci_bar remap_env initial_state bxt_device).2
      (intel_mmio_use_pci_bar remap_env
        (intel_mmio_use_pci_bar remap_env initial_state bxt_device).2 bxt_device).2).filter
        is_map_request = [Event.pci_device_map_range bxt_device 0x90000000 16384 1] ∧
    (intel_mmio_use_pci_bar remap_env
      (intel_mmio_use_pci_bar remap_env initial_state bxt_device).2
        bxt_device).2.hda_global_mmio = 0x7f0000004000 := by
  refine ⟨by decide, by decide, by decide, ?_, by decide⟩
  exact intel_mmio_use_pci_bar_requests _ _ _

/-- C8 as amended: the mapper has no already-mapped check. When a first call
has succeeded (so `hda_global_mmio` is non-null) and nothing has been
unmapped, a second call issues one more mapping request for the same base,
16384 bytes, writable; `hda_global_mmio` becomes whatever that request
leaves in it, and the call returns 0 exactly when the request reports no
error and leaves a non-null pointer, -1 otherwise. -/
theorem intel_mmio_use_pci_bar_second_call (env1 env2 : Env) (s : State) (d : pci_device)
    (hfirst : (intel_mmio_use_pci_bar env1 s d).1 = 0) :
    (intel_mmio_use_pci_bar env1 s d).2.hda_global_mmio ≠ 0 ∧
    (events_since (intel_mmio_use_pci_bar env1 s d).2
      (intel_mmio_use_pci_bar env2 (intel_mmio_use_pci_bar env1 s d).2 d).2).filter
        is_map_request = [Event.pci_device_map_range d (d.region 0).base_addr 16384 1] ∧
    (intel_mmio_use_pci_bar env2 (intel_mmio_use_pci_bar env1 s d).2 d).2.hda_global_mmio =
      (env2.pci_device_map_range d (d.region 0).base_addr 16384 1
        (intel_mmio_use_pci_bar env1 s d).2.hda_global_mmio).2 % 2 ^ 64 ∧
    ((intel_mmio_use_pci_bar env2 (intel_mmio_use_pci_bar env1 s d).2 d).1 = 0 ↔
      (env2.pci_device_map_range d (d.region 0).base_addr 16384 1
        (intel_mmio_use_pci_bar env1 s d).2.hda_global_mmio).1 = 0 ∧
      (env2.pci_device_map_range d (d.region 0).base_addr 16384 1
        (intel_mmio_use_pci_bar env1 s d).2.hda_global_mmio).2 % 2 ^ 64 ≠ 0) ∧
    ((intel_mmio_use_pci_bar env2 (intel_mmio_use_pci_bar env1 s d).2 d).1 ≠ 0 →
      (intel_mmio_use_pci_bar env2 (intel_mmio_use_pci_bar env1 s d).2 d).1 = -1) := by
  have h1 := intel_mmio_use_pci_bar_run env1 s d
  have h2 := intel_mmio_use_pci_bar_run env2 (intel_mmio_use_pci_bar env1 s d).2 d
  refine ⟨?_, intel_mmio_use_pci_bar_requests _ _ _, h2.2.1, h2.2.2.1, h2.2.2.2⟩
  rw [h1.2.1]
  exact (h1.2.2.1.mp hfirst).2

/-- C8 as amended, at a library that refuses a second mapping: the second
call still issues its request, and returns -1. -/
theorem intel_mmio_use_pci_bar_second_call_witness :
    (intel_mmio_use_pci_bar good_env initial_state bxt_device).1 = 0 ∧
    (events_since (intel_mmio_use_pci_bar good_env initial_state bxt_device).2
      (intel_mmio_use_pci_bar { good_env with pci_device_map_range := fun _ _ _ _ _ => (22, 0) }
        (intel_mmio_use_pci_bar good_env initial_state bxt_device).2 bxt_device).2).filter
        is_map_request
      = [Event.pci_device_map_range bxt_device (bxt_device.region 0).base_addr 16384 1] :=
  ⟨by decide,
   (intel_mmio_use_pci_bar_second_call good_env
      { good_env with pci_device_map_range := fun _ _ _ _ _ => (22, 0) }
      initial_state bxt_device (by decide)).2.1⟩

/-! ## Register accessor (C4) -/

/-- C4, as stated, fails: with BAR 0 mapped at `0x7f0000000000`, a read at
offset 16384 (so offset + 4 exceeds the 16384 bytes of the mapping) performs
the load, at `0x7f0000004000`, and returns the value found there. -/
theorem intel_register_read_past_the_end :
    16384 + 4 > HDA_MEM_REGION_SIZE ∧
    (intel_register_read mapped_state 16384).1 = some 0x03020100 ∧
    events_since mapped_state (intel_register_read mapped_state 16384).2
      = [Event.load32 0x7f0000004000] := by
  refine ⟨by decide, by decide, by decide⟩

/-- C4 as amended: the register read makes no bounds check. For every state
and every offset, inside the mapping or past its end, it performs exactly one
32-bit load, at `hda_global_mmio + reg`, changes nothing else, and returns
the 32-bit value loaded whenever the four bytes at that address are
readable; no offset is refused. -/
theorem intel_register_read_unchecked (s : State) (reg : Nat)
    (hreadable : ∀ k, k < 4 →
      (s.mem ((s.hda_global_mmio + reg % 2 ^ 32) % 2 ^ 64 + k)).isSome = true) :
    events_since s (intel_register_read s reg).2
      = [Event.load32 ((s.hda_global_mmio + reg % 2 ^ 32) % 2 ^ 64)] ∧
    (intel_register_read s reg).1
      = load32 s.mem ((s.hda_global_mmio + reg % 2 ^ 32) % 2 ^ 64) ∧
    (∃ v, (intel_register_read s reg).1 = some v ∧ v < 2 ^ 32) ∧
    (intel_register_read s reg).2.hda_global_mmio = s.hda_global_mmio ∧
    (intel_register_read s reg).2.files = s.files ∧
    (intel_register_read s reg).2.mem = s.mem ∧
    (intel_register_read s reg).2.open_fds = s.open_fds ∧
    (intel_register_read s reg).2.devid = s.devid ∧
    (intel_register_read s reg).2.regions_hda = s.regions_hda ∧
    (intel_register_read s reg).2.regions_dsp = s.regions_dsp := by
  refine ⟨by simp [events_since, intel_register_read, State.emit], rfl, ?_, rfl, rfl, rfl, rfl,
    rfl, rfl, rfl⟩
  have h0 := hreadable 0 (by decide)
  have h1 := hreadable 1 (by decide)
  have h2 := hreadable 2 (by decide)
  have h3 := hreadable 3 (by decide)
  rw [Option.isSome_iff_exists] at h0 h1 h2 h3
  obtain ⟨b0, e0⟩ := h0
  obtain ⟨b1, e1⟩ := h1
  obtain ⟨b2, e2⟩ := h2
  obtain ⟨b3, e3⟩ := h3
  rw [Nat.add_zero] at e0
  refine ⟨b0 % 256 + 256 * (b1 % 256) + 65536 * (b2 % 256) + 16777216 * (b3 % 256),
    by simp only [intel_register_read, load32, e0, e1, e2, e3], ?_⟩
  have := Nat.mod_lt b0 (show 256 > 0 by decide)
  have := Nat.mod_lt b1 (show 256 > 0 by decide)
  have := Nat.mod_lt b2 (show 256 > 0 by decide)
  have := Nat.mod_lt b3 (show 256 > 0 by decide)
  omega

/-- C4 as amended, at offset 0xFFFFFFFC of a mapping at `0x7f0000000000`. -/
theorem intel_register_read_unchecked_witness :
    ∃ v, (intel_register_read mapped_state 0xFFFFFFFC).1 = some v ∧ v < 2 ^ 32 :=
  (intel_register_read_unchecked mapped_state 0xFFFFFFFC (fun _ _ => rfl)).2.2.1

/-! ## Dump exporter (C6, C7, C5) -/

/-- A complete write into an empty file leaves exactly the buffer. -/
theorem written_content_complete (buffer : List Nat) :
    written_content [] buffer (buffer.length : Int) = buffer := by
  simp [written_content]

/-- The buffer handed to `write` has the requested length. -/
theorem length_buffer_bytes (mem : Nat → Option Nat) (buf count : Nat) :
    (buffer_bytes mem buf count).length = count := by
  simp [buffer_bytes]

/-- The buffer handed to `write` holds the pattern the memory holds. -/
theorem buffer_bytes_eq_map (mem : Nat → Option Nat) (buf count : Nat) (p : Nat → Nat)
    (hp : ∀ i, i < count → mem (buf + i) = some (p i)) :
    buffer_bytes mem buf count = (List.range count).map p := by
  unfold buffer_bytes
  apply List.map_congr_left
  intro i hi
  rw [hp i (List.mem_range.mp hi)]
  rfl

/-- The run of the dump once the guard is passed and `open` has succeeded:
result, trace, descriptor table, files, and the untouched pointer and
memory. -/
theorem dump_memory_to_file_opened (env : Env) (s : State) (path : String)
    (hmap : s.hda_global_mmio ≠ 0) (hopen : 0 ≤ (env.sys_open path).1) :
    (dump_memory_to_file env s (some path)).1 =
      (if ((env.sys_write (env.sys_open path).1 s.hda_global_mmio HDA_MEM_REGION_SIZE)
            % 2 ^ 64).toNat = HDA_MEM_REGION_SIZE then 0 else -EIO_value) ∧
    (∃ m, (dump_memory_to_file env s (some path)).2.trace = s.trace ++
      [Event.sys_open path,
       Event.sys_write (env.sys_open path).1 s.hda_global_mmio HDA_MEM_REGION_SIZE,
       Event.print m,
       Event.sys_close (env.sys_open path).1]) ∧
    (dump_memory_to_file env s (some path)).2.open_fds = s.open_fds ∧
    (dump_memory_to_file env s (some path)).2.files = Function.update s.files path
      (some (written_content []
        (buffer_bytes s.mem s.hda_global_mmio HDA_MEM_REGION_SIZE)
        (env.sys_write (env.sys_open path).1 s.hda_global_mmio HDA_MEM_REGION_SIZE))) ∧
    (dump_memory_to_file env s (some path)).2.hda_global_mmio = s.hda_global_mmio ∧
    (dump_memory_to_file env s (some path)).2.mem = s.mem := by
  have hnot : ¬ (env.sys_open path).1 < 0 := not_lt.mpr hopen
  by_cases hb : ((env.sys_write (env.sys_open path).1 s.hda_global_mmio HDA_MEM_REGION_SIZE)
      % 18446744073709551616).toNat = HDA_MEM_REGION_SIZE
  · simp [dump_memory_to_file, State.emit, hmap, hnot, hb]
  · simp [dump_memory_to_file, State.emit, hmap, hnot, hb]

/-- The dump leaves the descriptor table as it found it, on every return
path. -/
theorem dump_memory_to_file_open_fds (env : Env) (s : State) (outfile : Option String) :
    (dump_memory_to_file env s outfile).2.open_fds = s.open_fds := by
  cases outfile with
  | none => rfl
  | some path =>
    by_cases hmap : s.hda_global_mmio = 0
    · simp [dump_memory_to_file, hmap]
    · by_cases hopen : (env.sys_open path).1 < 0
      · simp [dump_memory_to_file, State.emit, hmap, hopen]
      · exact (dump_memory_to_file_opened env s path hmap (not_lt.mp hopen)).2.2.1

/-- C6, as stated, fails for the empty path: with a region mapped, the dump
passes the empty path to `open`; when `open` fails with `ENOENT` the result
is -2, not -`EINVAL`. -/
theorem dump_memory_to_file_empty_path_reaches_open :
    (dump_memory_to_file enoent_env mapped_state (some "")).1 = -2 ∧
    (dump_memory_to_file enoent_env mapped_state (some "")).1 ≠ -EINVAL ∧
    events_since mapped_state (dump_memory_to_file enoent_env mapped_state (some "")).2
      = [Event.sys_open "", Event.print (Msg.open_failed "" (-2))] := by
  refine ⟨by decide, by decide, by decide⟩

/-- C6 as amended: the dump fails with -`EINVAL` (-22) whenever no region is
mapped or the path is null, and then returns with the state untouched: no
file is opened or created, no byte is written, nothing is added to the
trace. -/
theorem dump_memory_to_file_invalid_argument (env : Env) (s : State) (outfile : Option String)
    (hbad : s.hda_global_mmio = 0 ∨ outfile = none) :
    dump_memory_to_file env s outfile = (-EINVAL, s) ∧
    -EINVAL = -22 ∧
    (dump_memory_to_file env s outfile).2.files = s.files ∧
    events_since s (dump_memory_to_file env s outfile).2 = [] := by
  have h : dump_memory_to_file env s outfile = (-EINVAL, s) := by
    cases outfile with
    | none => rfl
    | some path =>
      rcases hbad with h0 | hn
      · simp [dump_memory_to_file, h0]
      · cases hn
  rw [h]
  exact ⟨rfl, rfl, rfl, by simp [events_since]⟩

/-- C6 as amended, in a fresh process (nothing mapped) with a path given. -/
theorem dump_memory_to_file_invalid_argument_witness :
    dump_memory_to_file good_env initial_state (some "hda.bin") = (-EINVAL, initial_state) :=
  (dump_memory_to_file_invalid_argument good_env initial_state (some "hda.bin")
    (Or.inl rfl)).1

/-- C7: after a successful `open`, whatever `write` returns (a complete
count, a short count or -1), the dump closes the descriptor exactly once, as
its last step; the descriptor table is as before the call; and the result is
0 exactly when the byte count reported equals 16384, and -`EIO` (-5)
otherwise. -/
theorem dump_memory_to_file_closes_once (env : Env) (s : State) (path : String)
    (hmap : s.hda_global_mmio ≠ 0) (hopen : 0 ≤ (env.sys_open path).1)
    (hrange : -(2 : Int) ^ 63 ≤ env.sys_write (env.sys_open path).1 s.hda_global_mmio 16384 ∧
      env.sys_write (env.sys_open path).1 s.hda_global_mmio 16384 < 2 ^ 63) :
    (events_since s (dump_memory_to_file env s (some path)).2).count
      (Event.sys_close (env.sys_open path).1) = 1 ∧
    (events_since s (dump_memory_to_file env s (some path)).2).getLast?
      = some (Event.sys_close (env.sys_open path).1) ∧
    (events_since s (dump_memory_to_file env s (some path)).2).head?
      = some (Event.sys_open path) ∧
    (dump_memory_to_file env s (some path)).2.open_fds = s.open_fds ∧
    ((dump_memory_to_file env s (some path)).1 = 0 ↔
      env.sys_write (env.sys_open path).1 s.hda_global_mmio 16384 = 16384) ∧
    ((dump_memory_to_file env s (some path)).1 ≠ 0 →
      (dump_memory_to_file env s (some path)).1 = -EIO_value) ∧
    -EIO_value = -5 := by
  have h := dump_memory_to_file_opened env s path hmap hopen
  have hsz : HDA_MEM_REGION_SIZE = 16384 := rfl
  rw [hsz] at h
  obtain ⟨m, hm⟩ := h.2.1
  have hbytes : ((env.sys_write (env.sys_open path).1 s.hda_global_mmio 16384) % 2 ^ 64).toNat
      = 16384 ↔ env.sys_write (env.sys_open path).1 s.hda_global_mmio 16384 = 16384 := by
    omega
  refine ⟨?_, ?_, ?_, h.2.2.1, ?_, ?_, rfl⟩
  · simp [events_since, hm, List.count_cons]
  · simp [events_since, hm]
  · simp [events_since, hm]
  · rw [h.1, ← hbytes]
    by_cases hb : ((env.sys_write (env.sys_open path).1 s.hda_global_mmio 16384)
        % 2 ^ 64).toNat = 16384
    · rw [if_pos hb]
      exact ⟨fun _ => hb, fun _ => rfl⟩
    · rw [if_neg hb]
      exact ⟨fun hc => absurd hc (by decide), fun hc => absurd hc hb⟩
  · intro hne
    rw [h.1] at hne ⊢
    by_cases hb : ((env.sys_write (env.sys_open path).1 s.hda_global_mmio 16384)
        % 2 ^ 64).toNat = 16384
    · rw [if_pos hb] at hne
      exact absurd rfl hne
    · rw [if_neg hb]

/-- C7 at a write that fails with -1: the descriptor is closed once and the
result is -`EIO`. -/
theorem dump_memory_to_file_closes_once_witness :
    (events_since mapped_state
      (dump_memory_to_file { good_env with sys_write := fun _ _ _ => -1 } mapped_state
        (some "hda.bin")).2).count (Event.sys_close 3) = 1 ∧
    (dump_memory_to_file { good_env with sys_write := fun _ _ _ => -1 } mapped_state
      (some "hda.bin")).1 = -EIO_value :=
  ⟨(dump_memory_to_file_closes_once { good_env with sys_write := fun _ _ _ => -1 }
      mapped_state "hda.bin" (by decide) (by decide) (by decide)).1,
   by decide⟩

/-- A dump whose `open` succeeds and whose `write` is complete returns 0 and
leaves at the path exactly the bytes of the region, whatever the path held
before. -/
theorem dump_memory_to_file_complete (env : Env) (s : State) (path : String) (p : Nat → Nat)
    (hmap : s.hda_global_mmio ≠ 0)
    (hp : ∀ i, i < HDA_MEM_REGION_SIZE → s.mem (s.hda_global_mmio + i) = some (p i))
    (hopen : 0 ≤ (env.sys_open path).1)
    (hwrite : env.sys_write (env.sys_open path).1 s.hda_global_mmio HDA_MEM_REGION_SIZE
      = (HDA_MEM_REGION_SIZE : Int)) :
    (dump_memory_to_file env s (some path)).1 = 0 ∧
    (dump_memory_to_file env s (some path)).2.files path
      = some ((List.range HDA_MEM_REGION_SIZE).map p) := by
  have h := dump_memory_to_file_opened env s path hmap hopen
  constructor
  · rw [h.1, hwrite, if_pos (by decide)]
  · rw [h.2.2.2.1, hwrite, Function.update_same,
      ← buffer_bytes_eq_map s.mem s.hda_global_mmio HDA_MEM_REGION_SIZE p hp]
    have hw := written_content_complete (buffer_bytes s.mem s.hda_global_mmio HDA_MEM_REGION_SIZE)
    rw [length_buffer_bytes] at hw
    rw [hw]

/-- C5: with a region of N = 16384 bytes mapped and holding the pattern `p`,
a dump whose `open` succeeds and whose `write` is complete returns 0 and
leaves at the path a file of exactly N bytes equal to `p` byte for byte,
whatever the path held before. A second dump to the same path, made when the
region holds the pattern `p2`, again returns 0 and leaves exactly the N bytes
of `p2`: the first image is replaced, not extended. -/
theorem dump_memory_to_file_round_trip (env1 env2 : Env) (s : State) (path : String)
    (p p2 : Nat → Nat) (mem2 : Nat → Option Nat)
    (hmap : s.hda_global_mmio ≠ 0)
    (hp : ∀ i, i < HDA_MEM_REGION_SIZE → s.mem (s.hda_global_mmio + i) = some (p i))
    (hopen : 0 ≤ (env1.sys_open path).1)
    (hwrite : env1.sys_write (env1.sys_open path).1 s.hda_global_mmio HDA_MEM_REGION_SIZE
      = (HDA_MEM_REGION_SIZE : Int))
    (hp2 : ∀ i, i < HDA_MEM_REGION_SIZE → mem2 (s.hda_global_mmio + i) = some (p2 i))
    (hopen2 : 0 ≤ (env2.sys_open path).1)
    (hwrite2 : env2.sys_write (env2.sys_open path).1 s.hda_global_mmio HDA_MEM_REGION_SIZE
      = (HDA_MEM_REGION_SIZE : Int)) :
    HDA_MEM_REGION_SIZE = 16384 ∧
    (dump_memory_to_file env1 s (some path)).1 = 0 ∧
    (dump_memory_to_file env1 s (some path)).2.files path
      = some ((List.range HDA_MEM_REGION_SIZE).map p) ∧
    ((List.range HDA_MEM_REGION_SIZE).map p).length = 16384 ∧
    (dump_memory_to_file env2
      { (dump_memory_to_file env1 s (some path)).2 with mem := mem2 } (some path)).1 = 0 ∧
    (dump_memory_to_file env2
      { (dump_memory_to_file env1 s (some path)).2 with mem := mem2 } (some path)).2.files path
      = some ((List.range HDA_MEM_REGION_SIZE).map p2) ∧
    ((List.range HDA_MEM_REGION_SIZE).map p2).length = 16384 := by
  have h1 := dump_memory_to_file_complete env1 s path p hmap hp hopen hwrite
  have hptr := (dump_memory_to_file_opened env1 s path hmap hopen).2.2.2.2.1
  have h2 := dump_memory_to_file_complete env2
    { (dump_memory_to_file env1 s (some path)).2 with mem := mem2 } path p2
    (by rw [hptr]; exact hmap) (by rw [hptr]; exact hp2) hopen2 (by rw [hptr]; exact hwrite2)
  have hlen : ∀ q : Nat → Nat, ((List.range HDA_MEM_REGION_SIZE).map q).length = 16384 := by
    intro q
    rw [List.length_map, List.length_range]
    rfl
  exact ⟨rfl, h1.1, h1.2, hlen p, h2.1, h2.2, hlen p2⟩

/-- C5 at a region mapped at `0x7f0000000000` whose bytes read as their
address modulo 256 at the first dump and as 0xAB at the second. -/
theorem dump_memory_to_file_round_trip_witness :
    (dump_memory_to_file good_env mapped_state (some "hda.bin")).2.files "hda.bin"
      = some ((List.range HDA_MEM_REGION_SIZE).map (fun i => (0x7f0000000000 + i) % 256)) ∧
    (dump_memory_to_file good_env
      { (dump_memory_to_file good_env mapped_state (some "hda.bin")).2 with
        mem := fun _ => some 0xAB } (some "hda.bin")).2.files "hda.bin"
      = some ((List.range HDA_MEM_REGION_SIZE).map (fun _ => 0xAB)) :=
  ⟨(dump_memory_to_file_round_trip good_env good_env mapped_state "hda.bin"
      (fun i => (0x7f0000000000 + i) % 256) (fun _ => 0xAB) (fun _ => some 0xAB)
      (by decide) (fun _ _ => rfl) (by decide) rfl (fun _ _ => rfl) (by decide) rfl).2.2.1,
   (dump_memory_to_file_round_trip good_env good_env mapped_state "hda.bin"
      (fun i => (0x7f0000000000 + i) % 256) (fun _ => 0xAB) (fun _ => some 0xAB)
      (by decide) (fun _ _ => rfl) (by decide) rfl (fun _ _ => rfl) (by decide) rfl).2.2.2.2.2.1⟩

/-! ## Platform gate in the driver (C2) -/

/-- When the option loop lets the run go on, it has left the state as it
was. -/
theorem main_options_proceeds (s : State) (args : List getopt_result) (o : Option String)
    (h : (main_options s args o).1.1 = none) : (main_options s args o).2 = s := by
  induction args generalizing o with
  | nil => rfl
  | cons g rest ih =>
    unfold main_options at h ⊢
    by_cases hh : g.c = 104
    · simp [hh] at h
    · by_cases ho : g.c = 111
      · simp only [hh, ho, if_false, if_true] at h ⊢
        exact ih _ h
      · simp [hh, ho] at h

/-- The locator touches neither the module variables nor memory, files or
descriptors, and the events it adds are none of a later stage. -/
theorem intel_get_audio_pci_device_effects (env : Env) (s : State) :
    (∃ evs, (intel_get_audio_pci_device env s).2.trace = s.trace ++ evs ∧
      ∀ e ∈ evs, is_later_stage e = false) ∧
    (intel_get_audio_pci_device env s).2.hda_global_mmio = s.hda_global_mmio ∧
    (intel_get_audio_pci_device env s).2.files = s.files ∧
    (intel_get_audio_pci_device env s).2.open_fds = s.open_fds ∧
    (intel_get_audio_pci_device env s).2.mem = s.mem := by
  by_cases hinit : env.pci_system_init = 0
  · cases hs : env.pci_device_find_by_slot 0 AUDIO_PCI_SLOT 0 0 with
    | none =>
      cases hn : env.pci_device_next audio_match with
      | none =>
        refine ⟨⟨_, by simp [intel_get_audio_pci_device, hinit, hs, hn, State.emit]; rfl, ?_⟩, ?_⟩
        · simp [is_later_stage]
        · simp [intel_get_audio_pci_device, hinit, hs, hn, State.emit]
      | some d =>
        by_cases hp : env.pci_device_probe d = 0
        · refine ⟨⟨_, by simp [intel_get_audio_pci_device, hinit, hs, hn, hp, State.emit]; rfl,
            ?_⟩, ?_⟩
          · simp [is_later_stage]
          · simp [intel_get_audio_pci_device, hinit, hs, hn, hp, State.emit]
        · refine ⟨⟨_, by simp [intel_get_audio_pci_device, hinit, hs, hn, hp, State.emit]; rfl,
            ?_⟩, ?_⟩
          · simp [is_later_stage]
          · simp [intel_get_audio_pci_device, hinit, hs, hn, hp, State.emit]
    | some d0 =>
      by_cases hv : d0.vendor_id = 0x8086
      · refine ⟨⟨_, by simp [intel_get_audio_pci_device, hinit, hs, hv, State.emit]; rfl, ?_⟩, ?_⟩
        · simp [is_later_stage]
        · simp [intel_get_audio_pci_device, hinit, hs, hv, State.emit]
      · cases hn : env.pci_device_next audio_match with
        | none =>
          refine ⟨⟨_, by simp [intel_get_audio_pci_device, hinit, hs, hn, hv, State.emit]; rfl,
            ?_⟩, ?_⟩
          · simp [is_later_stage]
          · simp [intel_get_audio_pci_device, hinit, hs, hn, hv, State.emit]
        | some d =>
          by_cases hp : env.pci_device_probe d = 0
          · refine ⟨⟨_, by simp [intel_get_audio_pci_device, hinit, hs, hn, hp, hv, State.emit]; rfl,
              ?_⟩, ?_⟩
            · simp [is_later_stage]
            · simp [intel_get_audio_pci_device, hinit, hs, hn, hp, hv, State.emit]
          · refine ⟨⟨_, by simp [intel_get_audio_pci_device, hinit, hs, hn, hp, hv, State.emit]; rfl,
              ?_⟩, ?_⟩
            · simp [is_later_stage]
            · simp [intel_get_audio_pci_device, hinit, hs, hn, hp, hv, State.emit]
  · refine ⟨⟨_, by simp [intel_get_audio_pci_device, hinit, State.emit]; rfl, ?_⟩, ?_⟩
    · simp [is_later_stage]
    · simp [intel_get_audio_pci_device, hinit, State.emit]

/-- C2: when the option loop lets the run go on and the locator returns a
device whose (vendor, device) pair is not (0x8086, 0x5A98), `main` returns
-`EINVAL` (-22) right after the gate: the run holds no configuration read, no
mapping request, no register load and no step of the dump, and it leaves the
mapping pointer, the files and the descriptor table as they were. -/
theorem main_unsupported_platform (env : Env) (s : State) (args : List getopt_result)
    (d : pci_device)
    (hopts : (main_options s args none).1.1 = none)
    (hdev : (intel_get_audio_pci_device env s).1 = some d)
    (hgate : ¬ (d.vendor_id = 0x8086 ∧ d.device_id = 0x5A98)) :
    (main env s args).1 = some (-EINVAL) ∧
    -EINVAL = -22 ∧
    (main env s args).2.trace =
      (intel_get_audio_pci_device env s).2.trace ++ [Event.print Msg.only_bxt] ∧
    (∀ e ∈ events_since s (main env s args).2, is_later_stage e = false) ∧
    (main env s args).2.hda_global_mmio = s.hda_global_mmio ∧
    (main env s args).2.files = s.files ∧
    (main env s args).2.open_fds = s.open_fds := by
  have hst := main_options_proceeds s args none hopts
  have hbxt : IS_BXT d = false := by
    simp only [IS_BXT, Bool.and_eq_false_iff, beq_eq_false_iff_ne]
    by_cases hv : d.vendor_id = 0x8086
    · exact Or.inr (fun hd => hgate ⟨hv, hd⟩)
    · exact Or.inl hv
  have hmain : main env s args =
      (some (-EINVAL), (intel_get_audio_pci_device env s).2.emit (Event.print Msg.only_bxt)) := by
    simp only [main, hopts, hst, hdev, hbxt]
    rfl
  obtain ⟨⟨evs, htr, hevs⟩, hptr, hfiles, hfds, _⟩ := intel_get_audio_pci_device_effects env s
  rw [hmain]
  refine ⟨rfl, rfl, rfl, ?_, hptr, hfiles, hfds⟩
  intro e he
  simp only [events_since, State.emit, htr, List.append_assoc, List.drop_left] at he
  rcases List.mem_append.mp he with h | h
  · exact hevs e h
  · rw [List.mem_singleton.mp h]
    rfl

/-- C2 at an Intel HD-Audio controller of another platform (device 0x9d70)
found at the canonical slot, with an output file requested. -/
theorem main_unsupported_platform_witness :
    (main { good_env with pci_device_find_by_slot := fun _ _ _ _ => some other_device }
      initial_state [⟨111, some "hda.bin"⟩]).1 = some (-EINVAL) ∧
    (main { good_env with pci_device_find_by_slot := fun _ _ _ _ => some other_device }
      initial_state [⟨111, some "hda.bin"⟩]).2.files = initial_state.files :=
  ⟨(main_unsupported_platform
      { good_env with pci_device_find_by_slot := fun _ _ _ _ => some other_device }
      initial_state [⟨111, some "hda.bin"⟩] other_device rfl rfl (by decide)).1,
   (main_unsupported_platform
      { good_env with pci_device_find_by_slot := fun _ _ _ _ => some other_device }
      initial_state [⟨111, some "hda.bin"⟩] other_device rfl rfl (by decide)).2.2.2.2.2.1⟩

/-- A complete run on the supported platform, for reference: the gate is
passed, BAR 0 is mapped, and `main` returns 0. -/
theorem main_supported_platform_run :
    (main good_env initial_state []).1 = some 0 ∧
    (main good_env initial_state []).2.hda_global_mmio = 0x7f0000000000 := by
  refine ⟨by decide, by decide⟩

end SofAudioDump
